import Mathlib

/-!
Shallow embedding of the dactyl-remote-control sources (config.rs, keyboard.rs,
hyprland.rs, main.rs) and proofs about the window-rule matcher, the device
report codec, the send_message error routing, the line decoder of the
streaming backend and the two focus-watch loops.

Conventions: Rust `u8` values are modelled as `Nat` (no arithmetic overflows
occur in the modelled code paths); `Result<T, E>` is modelled as `Except E T`;
strings are Lean `String`s and Rust byte-level substring search on valid UTF-8
coincides with character-level substring search, which is what we model.
-/

namespace DactylRC

/-- Models Rust `str::to_lowercase` applied character-wise. Lean's
`Char.toLower` lower-cases the ASCII range and keeps every other character
unchanged; the non-ASCII special cases of Unicode lower-casing are not
modelled (all patterns exercised here are ASCII). -/
def rustLowerStr (s : String) : String :=
  String.mk (s.data.map Char.toLower)

/-- Models Rust `str::contains(needle)`: the needle occurs as a contiguous
substring of the haystack (at any position; an empty needle always occurs). -/
def strContains : List Char → List Char → Bool
  | [], pat => pat.isEmpty
  | c :: rest, pat => pat.isPrefixOf (c :: rest) || strContains rest pat

/-- String-level wrapper for `strContains`: `contains hay pat` models Rust
`hay.contains(pat)`. -/
def contains (hay pat : String) : Bool :=
  strContains hay.data pat.data

/-! ## config.rs -/

/-- `WindowWatcherEntry` from config.rs: one window-matching rule. -/
structure WindowWatcherEntry where
  «include» : List String
  exclude : List String
  base_layer : Option Nat
  to_layer : Option Nat
deriving Repr, DecidableEq

/-- `WindowWatcherGlobalConfig` from config.rs: the defaults entry. -/
structure WindowWatcherGlobalConfig where
  exclude : Option (List String)
  «include» : Option (List String)
  base_layer : Option Nat
  to_layer : Option Nat
deriving Repr, DecidableEq

/-- `WindowWatcherGlobalConfig::apply_defaults`: an empty include (resp.
exclude) list is replaced by the defaults' list when the defaults supply one;
`base_layer`/`to_layer` are filled with `Option::or`. -/
def apply_defaults (self : WindowWatcherGlobalConfig) (other : WindowWatcherEntry) :
    WindowWatcherEntry :=
  let other :=
    match self.«include» with
    | some inc => if other.«include».isEmpty then { other with «include» := inc } else other
    | none => other
  let other :=
    match self.exclude with
    | some exc => if other.exclude.isEmpty then { other with exclude := exc } else other
    | none => other
  let other := { other with base_layer := other.base_layer.or self.base_layer }
  { other with to_layer := other.to_layer.or self.to_layer }

/-- The tail of `WindowWatcherConfig::load_config`, after deserialization: the
`entries` hash map is drained — its key-value pairs arrive in the map's
incidental iteration order, taken here as the parameter `drained` — the key is
discarded and the global defaults are applied to every entry, in that order. -/
def load_config_entries (defaults : WindowWatcherGlobalConfig)
    (drained : List (String × WindowWatcherEntry)) : List WindowWatcherEntry :=
  drained.map (fun p => apply_defaults defaults p.2)

/-- The predicate of the `find` inside `WindowWatcherConfig::matches_window`:
some include pattern occurs (case-insensitively) in the window name and no
exclude pattern does. -/
def entry_predicate (window_name : String) (entry : WindowWatcherEntry) : Bool :=
  let matches_include :=
    entry.«include».any (fun inc => contains (rustLowerStr window_name) (rustLowerStr inc))
  let matches_exclude :=
    entry.exclude.any (fun exc => contains (rustLowerStr window_name) (rustLowerStr exc))
  matches_include && !matches_exclude

/-- `WindowWatcherConfig::matches_window`: the first entry satisfying
`entry_predicate`, if any. -/
def matches_window (entries : List WindowWatcherEntry) (window_name : String) :
    Option WindowWatcherEntry :=
  entries.find? (entry_predicate window_name)

/-! ## keyboard.rs -/

def REPORT_LENGTH : Nat := 32

/-- `Operation` from keyboard.rs: the request side of the device protocol. -/
inductive Operation where
  | Bootloader
  | GetLayer
  | ChangeLayer (layer : Nat)
  | GetLayers
  | GetJiggler
  | SetJiggler (value : Bool)
deriving Repr, DecidableEq

def OPERATION_BOOTLOADER : Nat := 0x42

def OPERATION_GET_LAYER : Nat := 0x43

def OPERATION_CHANGE_LAYER : Nat := 0x44

def OPERATION_GET_LAYERS : Nat := 0x46

def OPERATION_GET_JIGGLER : Nat := 0x47

def OPERATION_SET_JIGGLER : Nat := 0x48

/-- `Operation::report`: a zeroed 32-byte buffer with byte 0 set to the
operation's opcode and byte 1 set to the argument for the operations that
carry one (`ChangeLayer`'s layer; `SetJiggler`'s flag as 1/0). -/
def Operation.report : Operation → List Nat
  | .Bootloader => OPERATION_BOOTLOADER :: 0 :: List.replicate 30 0
  | .GetLayer => OPERATION_GET_LAYER :: 0 :: List.replicate 30 0
  | .ChangeLayer layer => OPERATION_CHANGE_LAYER :: layer :: List.replicate 30 0
  | .GetLayers => OPERATION_GET_LAYERS :: 0 :: List.replicate 30 0
  | .GetJiggler => OPERATION_GET_JIGGLER :: 0 :: List.replicate 30 0
  | .SetJiggler value => OPERATION_SET_JIGGLER :: (if value then 1 else 0) :: List.replicate 30 0

/-- `KeyboardResponse` from keyboard.rs; the layer-name map of `LayerNames`
is modelled as an association list (it is never produced by the decoder). -/
inductive KeyboardResponse where
  | None
  | CurrentLayerNum (layer : Nat)
  | CurrentLayer (layer : Nat) (name : String)
  | LayerNames (names : List (Nat × String))
  | JigglerStatus (status : Bool)
deriving Repr, DecidableEq

def KEYBOARD_RESPONSE_CURRENT_LAYER : Nat := 0x43

def KEYBOARD_RESPONSE_CURRENT_LAYER_NUM : Nat := 0x44

def KEYBOARD_RESPONSE_JIGGLER_STATUS : Nat := 0x47

/-- Rust `u8::is_ascii`: the byte value is at most 0x7f. Note that this is
true of every control byte below 0x80, including NUL. -/
def byteIsAscii (b : Nat) : Bool := b ≤ 0x7f

/-- `KeyboardResponse::parse_response`: dispatch on byte 0; for the
current-layer response the name is built from the bytes after the first two,
taken while `is_ascii` holds, each converted with `as char`. The function is
total: an unrecognized byte 0 yields `None`. -/
def parse_response (buffer : List Nat) : KeyboardResponse :=
  match buffer with
  | b0 :: b1 :: rest =>
    if b0 = KEYBOARD_RESPONSE_CURRENT_LAYER then
      KeyboardResponse.CurrentLayer b1 (String.mk ((rest.takeWhile byteIsAscii).map Char.ofNat))
    else if b0 = KEYBOARD_RESPONSE_CURRENT_LAYER_NUM then
      KeyboardResponse.CurrentLayerNum b1
    else if b0 = KEYBOARD_RESPONSE_JIGGLER_STATUS then
      KeyboardResponse.JigglerStatus (b1 != 0)
    else
      KeyboardResponse.None
  | _ => KeyboardResponse.None

/-- The custom `TransposableResult::transpose` from keyboard.rs: swaps the Ok
and Err sides of a `Result` (here, of an `Except`). -/
def rtranspose : Except ε α → Except α ε
  | .ok o => .error o
  | .error e => .ok e

/-- The outcome of `HidDevice::read_timeout` as observed by `send_message`:
either a successful read that filled the response buffer, or an error carrying
the display text of the underlying HID error. -/
inductive ReadOutcome where
  | ok (resp_buf : List Nat)
  | err (msg : String)
deriving Repr, DecidableEq

/-- `Keyboard::send_message` from the point after the (panicking-on-failure)
write: the read result is piped through `map`, the custom `transpose`, an
`and_then` that fails (in the swapped domain) exactly when the error text
contains "device disconnected", a second `transpose`, and a final `map` that
parses the response buffer. On a read error the 32-byte response buffer keeps
its initial zeros. -/
def send_message (read : ReadOutcome) : Except String KeyboardResponse :=
  let resp_buf : List Nat :=
    match read with
    | .ok buf => buf
    | .err _ => List.replicate REPORT_LENGTH 0
  let read_result : Except String Nat :=
    match read with
    | .ok buf => .ok buf.length
    | .err e => .error e
  let step1 : Except String Unit := read_result.map (fun _ => ())
  let step2 : Except Unit String := rtranspose step1
  let step3 : Except Unit String :=
    step2.bind (fun e =>
      if contains e "device disconnected" then Except.error () else Except.ok e)
  let step4 : Except String Unit := rtranspose step3
  step4.map (fun _ => parse_response resp_buf)

/-! ## hyprland.rs -/

/-- `Event` from hyprland.rs: a decoded line of the hyprland event socket. -/
inductive Event where
  | Nothing (line : String)
  | ActiveWindow (cls title : String)
deriving Repr, DecidableEq

/-- Rust `str::split_once(delim)` over character lists: split at the first
occurrence of the delimiter, dropping the delimiter itself; `none` when the
delimiter does not occur. -/
def splitOnceList (delim : List Char) : List Char → Option (List Char × List Char)
  | [] => if delim.isEmpty then some ([], []) else none
  | c :: rest =>
    if delim.isPrefixOf (c :: rest) then some ([], (c :: rest).drop delim.length)
    else
      match splitOnceList delim rest with
      | some (before, after) => some (c :: before, after)
      | none => none

/-- Rust `s.split_once(delim)` on strings. -/
def splitOnce (s delim : String) : Option (String × String) :=
  (splitOnceList delim.data s.data).map (fun p => (String.mk p.1, String.mk p.2))

/-- Rust `str::trim`: strip leading and trailing whitespace. Lean's
`Char.isWhitespace` covers space, tab, carriage return and newline; the
remaining Unicode white-space characters are not modelled. -/
def trimStr (s : String) : String :=
  String.mk (((s.data.dropWhile Char.isWhitespace).reverse.dropWhile Char.isWhitespace).reverse)

/-- `Event::from_line`: split the line on ">>" (no occurrence is an "Invalid
event line" error); an "activewindow" event name has its payload split on the
first comma into class and title (a payload with no comma is an "Invalid
active_window data" error); any other event name yields the pass-through
`Nothing` variant holding the whole line. -/
def Event.from_line (line : String) : Except String Event :=
  match splitOnce line ">>" with
  | none => Except.error ("Invalid event line: " ++ line)
  | some (event_name, data) =>
    if trimStr event_name = "activewindow" then
      match splitOnce data "," with
      | none => Except.error ("Invalid active_window data: " ++ data)
      | some (cls, title) => Except.ok (Event.ActiveWindow (trimStr cls) (trimStr title))
    else
      Except.ok (Event.Nothing line)

/-! ## main.rs -/

/-- One iteration of the loop body of `App::watch_hyprland_focus` for one
decoded event: only `ActiveWindow` events are considered; the window name is
`"{class} - {title}"`; a match records the entry and sends
`ChangeLayer(to_layer)` when `to_layer` is set — with no check whether the
same entry was already recorded; otherwise, when an entry was recorded,
`ChangeLayer(base_layer)` is sent when `base_layer` is set and the record is
cleared. Device commands are collected instead of performed (their results are
discarded by the source). -/
def watch_hyprland_step (config : List WindowWatcherEntry)
    (last_matched_window : Option WindowWatcherEntry) (event : Event) :
    Option WindowWatcherEntry × List Operation :=
  match event with
  | .Nothing _ => (last_matched_window, [])
  | .ActiveWindow cls title =>
    let name := cls ++ " - " ++ title
    match matches_window config name with
    | some entry =>
      (some entry,
        match entry.to_layer with
        | some layer => [Operation.ChangeLayer layer]
        | none => [])
    | none =>
      match last_matched_window with
      | some entry =>
        (none,
          match entry.base_layer with
          | some layer => [Operation.ChangeLayer layer]
          | none => [])
      | none => (last_matched_window, [])

/-- The loop of `App::watch_hyprland_focus` over a finite prefix of the event
stream, collecting the device commands it sends in order. -/
def watch_hyprland_focus (config : List WindowWatcherEntry) :
    Option WindowWatcherEntry → List Event → List Operation
  | _, [] => []
  | st, ev :: rest =>
    let step := watch_hyprland_step config st ev
    step.2 ++ watch_hyprland_focus config step.1 rest

/-- Rust `char::is_ascii`: the code point is at most 0x7f. -/
def charIsAscii (c : Char) : Bool := c.toNat ≤ 0x7f

/-- The ASCII filter applied to the CURRENT window name in
`App::watch_i3_focus`: `window_name.chars().filter(|c| c.is_ascii())`. -/
def filterAscii (s : String) : String :=
  String.mk (s.data.filter charIsAscii)

/-- One invocation of the callback body of `App::watch_i3_focus`: the current
node's name is filtered to its ASCII characters before matching; on a match
`ChangeLayer(to_layer)` is sent when set; otherwise the previous event's node
name — matched WITHOUT the ASCII filter — selects the entry whose
`ChangeLayer(base_layer)` is sent when set. `prev_ev` is the previous window
event, carrying the (optional) name of its container node. -/
def watch_i3_step (config : List WindowWatcherEntry)
    (prev_ev : Option (Option String)) (node_name : Option String) : List Operation :=
  match node_name with
  | none => []
  | some window_name =>
    let name := filterAscii window_name
    match matches_window config name with
    | some entry =>
      match entry.to_layer with
      | some layer => [Operation.ChangeLayer layer]
      | none => []
    | none =>
      match prev_ev with
      | some (some prev_name) =>
        match matches_window config prev_name with
        | some entry =>
          match entry.base_layer with
          | some layer => [Operation.ChangeLayer layer]
          | none => []
        | none => []
      | _ => []

/-! ## Spec-side definitions (worded from spec.md, for the refinement claims) -/

/-- Spec wording: `pat` is a case-insensitive substring of `name`. -/
def CaseInsensitiveSubstring (pat name : String) : Prop :=
  (rustLowerStr pat).data <:+: (rustLowerStr name).data

/-- Spec wording of when a rule matches a window name: at least one of its
include patterns is a case-insensitive substring of the name, and none of its
exclude patterns is. -/
def RuleApplies (name : String) (entry : WindowWatcherEntry) : Prop :=
  (∃ p ∈ entry.«include», CaseInsensitiveSubstring p name) ∧
    ∀ p ∈ entry.exclude, ¬ CaseInsensitiveSubstring p name

instance (pat name : String) : Decidable (CaseInsensitiveSubstring pat name) := by
  unfold CaseInsensitiveSubstring
  infer_instance

instance (name : String) (entry : WindowWatcherEntry) : Decidable (RuleApplies name entry) := by
  unfold RuleApplies
  infer_instance

/-- Spec wording of `match_window`: iterate the rules in order and return the
first one that applies; none when no rule applies. -/
def spec_match_window (name : String) : List WindowWatcherEntry → Option WindowWatcherEntry
  | [] => none
  | entry :: rest =>
    if RuleApplies name entry then some entry else spec_match_window name rest

/-- Spec wording (as amended for C4) of the decoded layer name: take bytes
while each one is ASCII, stopping at the first byte that is not. -/
def spec_name_bytes : List Nat → List Nat
  | [] => []
  | b :: rest => if byteIsAscii b then b :: spec_name_bytes rest else []

/-- Spec wording: the opcode constant of each request operation. -/
def opcodeOf : Operation → Nat
  | .Bootloader => OPERATION_BOOTLOADER
  | .GetLayer => OPERATION_GET_LAYER
  | .ChangeLayer _ => OPERATION_CHANGE_LAYER
  | .GetLayers => OPERATION_GET_LAYERS
  | .GetJiggler => OPERATION_GET_JIGGLER
  | .SetJiggler _ => OPERATION_SET_JIGGLER

/-- Spec wording: the single payload argument of an operation when it carries
one (the layer number, or 1/0 for the boolean flag), else 0. -/
def payloadArg : Operation → Nat
  | .ChangeLayer layer => layer
  | .SetJiggler value => if value then 1 else 0
  | _ => 0

/-! ## Concrete fixtures used by the claims' example parts -/

/-- First rule of the spec's matcher example: include ["foo"]. -/
def demoRule0 : WindowWatcherEntry :=
  { «include» := ["foo"], exclude := [], base_layer := none, to_layer := none }

/-- Second rule of the spec's matcher example: include ["baz"], exclude ["bin"]. -/
def demoRule1 : WindowWatcherEntry :=
  { «include» := ["baz"], exclude := ["bin"], base_layer := none, to_layer := none }

def demoRules : List WindowWatcherEntry := [demoRule0, demoRule1]

/-- A rule with `to_layer = 2` matching any window whose name contains "a". -/
def c2rule : WindowWatcherEntry :=
  { «include» := ["a"], exclude := [], base_layer := none, to_layer := some 2 }

def c2rules : List WindowWatcherEntry := [c2rule]

/-- The spec's current-layer-with-name example report:
`[0x43, 3, 'Q' as byte, 'W' as byte, 0, ...]`, 32 bytes. -/
def c4buffer : List Nat := 0x43 :: 3 :: 0x51 :: 0x57 :: List.replicate 28 0

def c5entryA : WindowWatcherEntry :=
  { «include» := ["editor"], exclude := [], base_layer := none, to_layer := some 1 }

def c5entryB : WindowWatcherEntry :=
  { «include» := ["browser"], exclude := [], base_layer := none, to_layer := some 2 }

def c5defaults : WindowWatcherGlobalConfig :=
  { exclude := none, «include» := none, base_layer := none, to_layer := none }

/-- The declared order of the two named entries of a configuration file. -/
def c5drainDecl : List (String × WindowWatcherEntry) := [("a", c5entryA), ("b", c5entryB)]

/-- The same two entries in the other iteration order a hash-map drain may
legally produce. -/
def c5drainSwapped : List (String × WindowWatcherEntry) := [("b", c5entryB), ("a", c5entryA)]

/-- The spec's defaults-inheritance example entry: everything empty/absent. -/
def c7entry : WindowWatcherEntry :=
  { «include» := [], exclude := [], base_layer := none, to_layer := none }

/-- The spec's defaults-inheritance example defaults: include ["x"], base_layer 1. -/
def c7defaults : WindowWatcherGlobalConfig :=
  { exclude := none, «include» := some ["x"], base_layer := some 1, to_layer := none }

/-- A rule whose single include pattern is the non-ASCII string "é". -/
def c10rule : WindowWatcherEntry :=
  { «include» := ["é"], exclude := [], base_layer := some 0, to_layer := some 2 }

def c10rules : List WindowWatcherEntry := [c10rule]

/-! ## Helper lemmas -/

/-- Correctness of the Rust `contains` model: the needle is an infix of the
haystack. -/
theorem strContains_eq_true_iff (hay pat : List Char) :
    strContains hay pat = true ↔ pat <:+: hay := by
  induction hay with
  | nil =>
    simp [strContains, List.isEmpty_iff, List.infix_nil]
  | cons c rest ih =>
    simp [strContains, Bool.or_eq_true, ih, List.isPrefixOf_iff_prefix, List.infix_cons_iff]

/-- The Boolean predicate of `matches_window` decides the spec-side
`RuleApplies` condition. -/
theorem entry_predicate_eq_true_iff (n : String) (e : WindowWatcherEntry) :
    entry_predicate n e = true ↔ RuleApplies n e := by
  unfold entry_predicate RuleApplies CaseInsensitiveSubstring contains
  simp [Bool.and_eq_true, List.any_eq_true, strContains_eq_true_iff]

/-- The `takeWhile` of the decoder computes the spec-worded name bytes. -/
theorem takeWhile_eq_spec_name_bytes (l : List Nat) :
    l.takeWhile byteIsAscii = spec_name_bytes l := by
  induction l with
  | nil => rfl
  | cons b rest ih =>
    by_cases h : byteIsAscii b = true
    · simp [List.takeWhile_cons, spec_name_bytes, h, ih]
    · simp [List.takeWhile_cons, spec_name_bytes, h]

/-- C1: for every rule list and window name, `matches_window` returns the
first rule in order with at least one include pattern that is a
case-insensitive substring of the name and no exclude pattern that is (none
when no rule qualifies) — shown as equality with the spec-worded first-match
function — and, for the rules `[{include:["foo"]}, {include:["baz"],
exclude:["bin"]}]`, matching "foo" yields rule 0, "baz" yields rule 1, and
"baz bin" and "bin" yield none. -/
theorem matches_window_first_match :
    (∀ (entries : List WindowWatcherEntry) (n : String),
        matches_window entries n = spec_match_window n entries) ∧
      matches_window demoRules "foo" = some demoRule0 ∧
      matches_window demoRules "baz" = some demoRule1 ∧
      matches_window demoRules "baz bin" = none ∧
      matches_window demoRules "bin" = none := by
  refine ⟨?_, by decide, by decide, by decide, by decide⟩
  intro entries n
  induction entries with
  | nil => rfl
  | cons e rest ih =>
    by_cases h : RuleApplies n e
    · have hb : entry_predicate n e = true := (entry_predicate_eq_true_iff n e).mpr h
      simp [matches_window, spec_match_window, List.find?_cons_of_pos, hb, h]
    · have hb : ¬ entry_predicate n e = true := fun hc =>
        h ((entry_predicate_eq_true_iff n e).mp hc)
      rw [spec_match_window, if_neg h, matches_window, List.find?_cons_of_neg _ hb]
      exact ih

/-- C2 counterexample: the same matching window (rule with `to_layer = 2`)
reported twice in a row makes the hyprland watch loop issue `ChangeLayer 2`
twice, not once. -/
theorem watch_hyprland_not_idempotent :
    watch_hyprland_focus c2rules none
        [Event.ActiveWindow "a" "x", Event.ActiveWindow "a" "x"] =
      [Operation.ChangeLayer 2, Operation.ChangeLayer 2] ∧
      [Operation.ChangeLayer 2, Operation.ChangeLayer 2] ≠ [Operation.ChangeLayer 2] := by
  exact ⟨by decide, by decide⟩

/-- C2 amended: the watch loop sends the `ChangeLayer` command on EVERY
matching event, with no check whether the state is already `Matched(R)`: a
rule `R` with `to_layer = 2` matching identity `A` reported twice issues
`ChangeLayer 2` twice (once per event), from any starting state. -/
theorem watch_hyprland_sends_on_every_match
    (config : List WindowWatcherEntry) (R : WindowWatcherEntry) (cls title : String)
    (st : Option WindowWatcherEntry)
    (hmatch : matches_window config (cls ++ " - " ++ title) = some R)
    (hto : R.to_layer = some 2) :
    watch_hyprland_focus config st
        [Event.ActiveWindow cls title, Event.ActiveWindow cls title] =
      [Operation.ChangeLayer 2, Operation.ChangeLayer 2] := by
  simp [watch_hyprland_focus, watch_hyprland_step, hmatch, hto]

/-- C2 amended, witness: the amended statement evaluated at a concrete rule
set and event pair. -/
theorem watch_hyprland_sends_on_every_match_witness :
    watch_hyprland_focus c2rules none
        [Event.ActiveWindow "firefox" "page", Event.ActiveWindow "firefox" "page"] =
      [Operation.ChangeLayer 2, Operation.ChangeLayer 2] :=
  watch_hyprland_sends_on_every_match c2rules c2rule "firefox" "page" none
    (by decide) (by decide)

/-- C3 counterexample: a read failure whose error text is "device
disconnected" is NOT reported as an error — `send_message` routes it to the
success path and returns the successful no-data response `Ok(None)` (parsed
from the untouched zero buffer). -/
theorem send_message_disconnect_is_ok_none :
    send_message (ReadOutcome.err "device disconnected") =
      Except.ok KeyboardResponse.None := by
  rfl

/-- C3 amended: a read failure whose error text does not contain "device
disconnected" is propagated to the caller as an error; a read failure whose
text does contain it is silently routed to the success path and parsed from
the untouched all-zero buffer, yielding the successful `None` response; a
successful read is always parsed. -/
theorem send_message_error_routing (e : String) (buf : List Nat) :
    (contains e "device disconnected" = false →
        send_message (ReadOutcome.err e) = Except.error e) ∧
      (contains e "device disconnected" = true →
        send_message (ReadOutcome.err e) = Except.ok KeyboardResponse.None) ∧
      send_message (ReadOutcome.ok buf) = Except.ok (parse_response buf) := by
  refine ⟨fun h => ?_, fun h => ?_, ?_⟩
  · simp [send_message, rtranspose, Except.map, Except.bind, h]
  · have hz : parse_response (List.replicate REPORT_LENGTH 0) = KeyboardResponse.None := by rfl
    simp [send_message, rtranspose, Except.map, Except.bind, h, hz]
  · simp [send_message, rtranspose, Except.map, Except.bind]

/-- C3 amended, witness: the routing evaluated at a propagated error text and
at a swallowed "device disconnected" error text. -/
theorem send_message_error_routing_witness :
    send_message (ReadOutcome.err "hid read failed") = Except.error "hid read failed" ∧
      send_message (ReadOutcome.err "hidapi: device disconnected (os error)") =
        Except.ok KeyboardResponse.None :=
  ⟨(send_message_error_routing "hid read failed" []).1 (by decide),
    (send_message_error_routing "hidapi: device disconnected (os error)" []).2.1 (by decide)⟩

/-- C4 counterexample: `is_ascii` does not stop at NUL (NUL is an ASCII
byte), so the decoded layer name keeps the trailing zero bytes of the report:
the spec's example buffer decodes to "QW" followed by 28 NUL characters, not
to "QW". -/
theorem parse_response_keeps_nul_bytes :
    parse_response c4buffer =
        KeyboardResponse.CurrentLayer 3
          (String.mk ('Q' :: 'W' :: List.replicate 28 (Char.ofNat 0))) ∧
      String.mk ('Q' :: 'W' :: List.replicate 28 (Char.ofNat 0)) ≠ "QW" := by
  exact ⟨by decide, by decide⟩

/-- C4 amended: for a report whose byte 0 is the current-layer-with-name
opcode 0x43, the name is built from the bytes from index 2 onward taken while
each byte is ASCII (at most 0x7f), stopping at the first byte that is not;
ASCII control bytes, NUL included, are kept, so the spec's example buffer
decodes to `CurrentLayer 3` of "QW" followed by 28 NUL characters. -/
theorem parse_response_current_layer_name :
    (∀ (b1 : Nat) (rest : List Nat),
        parse_response (0x43 :: b1 :: rest) =
          KeyboardResponse.CurrentLayer b1
            (String.mk ((spec_name_bytes rest).map Char.ofNat))) ∧
      parse_response c4buffer =
        KeyboardResponse.CurrentLayer 3
          (String.mk ('Q' :: 'W' :: List.replicate 28 (Char.ofNat 0))) := by
  constructor
  · intro b1 rest
    simp [parse_response, KEYBOARD_RESPONSE_CURRENT_LAYER, takeWhile_eq_spec_name_bytes]
  · decide

/-- C5: the rule list produced by load_config depends on the hash map's
incidental drain order: two legal drain orders of the same two declared
entries yield differently ordered rule lists, so the order is not the
declaration order. -/
theorem load_config_entries_order_dependent :
    List.Perm c5drainDecl c5drainSwapped ∧
      load_config_entries c5defaults c5drainDecl ≠
        load_config_entries c5defaults c5drainSwapped := by
  exact ⟨by decide, by decide⟩

/-- C6: every encoded report is 32 bytes, byte 0 is the operation's opcode
constant, byte 1 is the operation's single payload argument (the layer
number, 1/0 for the jiggler flag, 0 for the argument-less operations) and the
remaining 30 bytes are zero; in particular `ChangeLayer 5` encodes to
`[0x44, 5, 0, ...]`. -/
theorem report_layout :
    (∀ op : Operation,
        (Operation.report op).length = 32 ∧
          (Operation.report op).take 2 = [opcodeOf op, payloadArg op] ∧
          (Operation.report op).drop 2 = List.replicate 30 0) ∧
      Operation.report (Operation.ChangeLayer 5) = 0x44 :: 5 :: List.replicate 30 0 := by
  constructor
  · intro op
    cases op <;>
      simp [Operation.report, opcodeOf, payloadArg, OPERATION_BOOTLOADER, OPERATION_GET_LAYER,
        OPERATION_CHANGE_LAYER, OPERATION_GET_LAYERS, OPERATION_GET_JIGGLER,
        OPERATION_SET_JIGGLER]
  · decide

/-- Normal form of `apply_defaults`, one conjunct per field of the result. -/
theorem apply_defaults_fields (g : WindowWatcherGlobalConfig) (e : WindowWatcherEntry) :
    (apply_defaults g e).«include» =
        (match g.«include» with
          | some inc => if e.«include».isEmpty then inc else e.«include»
          | none => e.«include») ∧
      (apply_defaults g e).exclude =
        (match g.exclude with
          | some exc => if e.exclude.isEmpty then exc else e.exclude
          | none => e.exclude) ∧
      (apply_defaults g e).base_layer = e.base_layer.or g.base_layer ∧
      (apply_defaults g e).to_layer = e.to_layer.or g.to_layer := by
  cases g with
  | mk ge gi gb gt =>
    cases gi <;> cases ge <;>
      refine ⟨?_, ?_, ?_, ?_⟩ <;>
        simp only [apply_defaults, List.isEmpty_iff] <;>
          (repeat' split) <;> rfl

/-- C7: merging a partial rule entry with the defaults entry fills an empty
include (resp. exclude) list wholesale from the defaults' list when the
defaults supply one, fills an absent `to_layer`/`base_layer` from the
defaults, never overwrites a field the entry itself supplies, and on the
spec's example (empty entry, defaults `{include:["x"], base_layer:1}`) yields
`{include:["x"], exclude:[], base_layer:some 1, to_layer:none}`. -/
theorem apply_defaults_per_field (g : WindowWatcherGlobalConfig) (e : WindowWatcherEntry) :
    (e.«include» ≠ [] → (apply_defaults g e).«include» = e.«include») ∧
      (∀ l, e.«include» = [] → g.«include» = some l → (apply_defaults g e).«include» = l) ∧
      (e.exclude ≠ [] → (apply_defaults g e).exclude = e.exclude) ∧
      (∀ l, e.exclude = [] → g.exclude = some l → (apply_defaults g e).exclude = l) ∧
      (∀ x, e.base_layer = some x → (apply_defaults g e).base_layer = some x) ∧
      (e.base_layer = none → (apply_defaults g e).base_layer = g.base_layer) ∧
      (∀ x, e.to_layer = some x → (apply_defaults g e).to_layer = some x) ∧
      (e.to_layer = none → (apply_defaults g e).to_layer = g.to_layer) ∧
      apply_defaults c7defaults c7entry =
        { «include» := ["x"], exclude := [], base_layer := some 1, to_layer := none } := by
  obtain ⟨hinc, hexc, hbase, hto⟩ := apply_defaults_fields g e
  refine ⟨?_, ?_, ?_, ?_, ?_, ?_, ?_, ?_, by decide⟩
  · intro h
    rw [hinc]
    cases hg : g.«include» with
    | none => rfl
    | some l => simp [List.isEmpty_iff, h]
  · intro l h hl
    rw [hinc, hl]
    simp [h]
  · intro h
    rw [hexc]
    cases hg : g.exclude with
    | none => rfl
    | some l => simp [List.isEmpty_iff, h]
  · intro l h hl
    rw [hexc, hl]
    simp [h]
  · intro x h
    rw [hbase, h]
    rfl
  · intro h
    rw [hbase, h]
    rfl
  · intro x h
    rw [hto, h]
    rfl
  · intro h
    rw [hto, h]
    rfl

/-- C7 witness: the per-field merge statement evaluated on the spec's
defaults-inheritance example. -/
theorem apply_defaults_per_field_witness :
    (apply_defaults c7defaults c7entry).«include» = ["x"] ∧
      (apply_defaults c7defaults c7entry).base_layer = some 1 ∧
      (apply_defaults c7defaults c7entry).to_layer = none :=
  ⟨(apply_defaults_per_field c7defaults c7entry).2.1 ["x"] (by decide) (by decide),
    (apply_defaults_per_field c7defaults c7entry).2.2.2.2.2.1 (by decide),
    (apply_defaults_per_field c7defaults c7entry).2.2.2.2.2.2.2.1 (by decide)⟩

/-- C8: decoding a 32-byte report whose byte 0 is none of the recognized
response opcodes (0x43 current-layer, 0x44 current-layer-number, 0x47
jiggler-status) yields the `None` no-data response; `parse_response` is a
total function into `KeyboardResponse`, so no input produces an error. -/
theorem parse_response_unrecognized (b0 b1 : Nat) (rest : List Nat)
    (_hlen : (b0 :: b1 :: rest).length = 32)
    (h43 : b0 ≠ 0x43) (h44 : b0 ≠ 0x44) (h47 : b0 ≠ 0x47) :
    parse_response (b0 :: b1 :: rest) = KeyboardResponse.None := by
  simp [parse_response, KEYBOARD_RESPONSE_CURRENT_LAYER, KEYBOARD_RESPONSE_CURRENT_LAYER_NUM,
    KEYBOARD_RESPONSE_JIGGLER_STATUS, h43, h44, h47]

/-- C8 witness: an unrecognized opcode byte evaluated concretely. -/
theorem parse_response_unrecognized_witness :
    parse_response (0x55 :: 7 :: List.replicate 30 0) = KeyboardResponse.None :=
  parse_response_unrecognized 0x55 7 (List.replicate 30 0)
    (by decide) (by decide) (by decide) (by decide)

/-- C9: for a line of the event socket that splits into an event name and a
payload, an event name other than "activewindow" always decodes successfully
to the pass-through `Nothing` variant, while an "activewindow" line whose
payload is missing the two comma-separated fields decodes to a hard error for
that line. -/
theorem from_line_events (line name data : String)
    (hsplit : splitOnce line ">>" = some (name, data)) :
    (trimStr name ≠ "activewindow" →
        Event.from_line line = Except.ok (Event.Nothing line)) ∧
      (trimStr name = "activewindow" → splitOnce data "," = none →
        Event.from_line line = Except.error ("Invalid active_window data: " ++ data)) := by
  constructor
  · intro h
    unfold Event.from_line
    rw [hsplit]
    simp [h]
  · intro h hdata
    unfold Event.from_line
    rw [hsplit]
    simp [h, hdata]

/-- C9 witness: the decoder evaluated on an unrecognized event line and on a
malformed "activewindow" line. -/
theorem from_line_events_witness :
    Event.from_line "workspace>>3" = Except.ok (Event.Nothing "workspace>>3") ∧
      Event.from_line "activewindow>>malformed" =
        Except.error ("Invalid active_window data: " ++ "malformed") :=
  ⟨(from_line_events "workspace>>3" "workspace" "3" (by decide)).1 (by decide),
    (from_line_events "activewindow>>malformed" "activewindow" "malformed" (by decide)).2
      (by decide) (by decide)⟩

/-- C10: the i3 path filters the CURRENT window name to ASCII before matching
but matches the PREVIOUS window name unfiltered: the non-ASCII name "é"
matches the rule as a previous window yet fails to match as the current
window, and an event whose current and previous window are both that very
window makes the callback emit the base-layer restore command. -/
theorem watch_i3_ascii_asymmetry :
    matches_window c10rules "é" = some c10rule ∧
      matches_window c10rules (filterAscii "é") = none ∧
      (∃ c ∈ "é".data, charIsAscii c = false) ∧
      watch_i3_step c10rules (some (some "é")) (some "é") = [Operation.ChangeLayer 0] := by
  refine ⟨by decide, by decide, ⟨'é', by decide, by decide⟩, by decide⟩

end DactylRC
